import Mathlib

/-!
Verification of the snapieimage upload server (`src/server.js`).

The server is a single Express application.  We shallowly embed the pieces
of `server.js` that the verified claims are about: the API-key middleware
`authenticateAPIKey`, the multer upload limits and MIME filter, the
filename generator `generateSafeFilename`, the path-containment check, the
sharp decode/transcode pipeline (modelled by its observable behaviour on
image buffers), and the `POST /upload` handler with its `catch` block.

Conventions of the embedding:
  * JavaScript strings are modelled as `List Char` (ASCII contents, so a
    string's `.length` and its byte length coincide, as for the hex API
    keys and header values the server deals in).
  * Nondeterministic inputs of the handler — `Date.now()`, the 8 random
    bytes from `crypto.randomBytes`, and the outcome of the filesystem
    write in `sharp(...).toFile` — are passed as explicit parameters.
  * The storage directory's contents are a list of stored artifacts,
    threaded through the handler.
-/

namespace Snapieimage

/-- JavaScript strings, modelled as lists of characters. -/
abbrev Str := List Char

/-- The image formats the server's MIME whitelist admits (sharp's
`metadata().format` tag for those inputs). -/
inductive ImageFormat where
  | jpeg
  | png
  | webp
  | gif
deriving DecidableEq

/-- A decodable source image, as sharp's decoder sees it: format tag, the
pixel width/height stored in the file (sharp's `metadata()` reports these
without applying the EXIF orientation), the EXIF orientation tag value
(1–8, where 1 means "no correction needed"; 5–8 are the transposing
orientations), and the number of animation frames (1 for still images). -/
structure SourceImage where
  format : ImageFormat
  width : Nat
  height : Nat
  orientation : Nat
  frames : Nat
deriving DecidableEq

/-- The content of an uploaded byte buffer, classified by how sharp's
decoder reacts to it: a zero-length buffer, a non-empty buffer that is not
a decodable image (`unsupported` selects between sharp's two failure
messages), or a decodable image. -/
inductive Buffer where
  | empty
  | corrupt (unsupported : Bool) (size : Nat)
  | image (img : SourceImage) (size : Nat)
deriving DecidableEq

/-- A JavaScript `Error` as the handler's `catch` block inspects it: an
optional `code` property (e.g. `"ENOSPC"` on a failed write) and a
`message`. -/
structure JsError where
  code : Option Str
  message : Str
deriving DecidableEq

/-- `sharp(buffer).metadata()`: resolves with the image metadata, or
rejects.  The rejection messages are sharp's: `"Input Buffer is empty"`
for a zero-length buffer, and `"Input buffer contains unsupported image
format"` / `"Input buffer has corrupt header"` for non-empty buffers that
do not decode.  Sharp errors carry no `code` property. -/
def sharpMetadata : Buffer → Except JsError SourceImage
  | Buffer.empty => Except.error ⟨none, "Input Buffer is empty".toList⟩
  | Buffer.corrupt u _ =>
      Except.error ⟨none,
        (if u then "Input buffer contains unsupported image format"
         else "Input buffer has corrupt header").toList⟩
  | Buffer.image img _ => Except.ok img

/-- The dimensions and frame count of the WebP artifact written by
`sharp(buffer, isGif ? { animated: true } : {}).rotate().webp(opts)
.toFile(...)`.  `.rotate()` with no argument auto-orients from the EXIF
orientation tag: for the transposing orientations 5–8 the output's width
and height are the source's height and width, otherwise they are
unchanged.  With the `animated` input option sharp decodes and encodes
every frame; without it only the first frame is read, so the output has a
single frame. -/
def sharpEncode (img : SourceImage) (animated : Bool) : Nat × Nat × Nat :=
  let dims :=
    if 5 ≤ img.orientation ∧ img.orientation ≤ 8
    then (img.height, img.width)
    else (img.width, img.height)
  (dims.1, dims.2, if animated then img.frames else 1)

/-- One file stored in the upload directory: its name and the pixel
dimensions and frame count of the WebP bytes on disk. -/
structure StoredArtifact where
  filename : Str
  width : Nat
  height : Nat
  frames : Nat
deriving DecidableEq

/-- The process configuration (`config` in `server.js`): the API key, the
resolved upload directory (`path.resolve(config.uploadDir)`, as a list of
path components of an absolute path), and the base URL. -/
structure Config where
  apiKey : Str
  uploadDir : List Str
  baseUrl : Str

/-- The file multer places at `req.file` for the `image` field. -/
structure UploadedFile where
  originalname : Str
  mimetype : Str
  size : Nat
  buffer : Buffer

/-- A `POST /upload` request: the `Authorization` header, if present, and
the uploaded file, if the multipart body carried one. -/
structure UploadRequest where
  authorization : Option Str
  file : Option UploadedFile

/-- The JSON body + status the handler sends.  Fields that a given
response does not set are `none`/`false`. -/
structure UploadResponse where
  status : Nat
  success : Bool := false
  url : Option Str := none
  filename : Option Str := none
  originalFormat : Option ImageFormat := none
  size : Option (Nat × Nat) := none
  error : Option Str := none
  message : Option Str := none
deriving DecidableEq

/-- The literal scheme the middleware strips: `"Bearer "`. -/
def bearerScheme : Str := "Bearer ".toList

/-- Verdict of the `authenticateAPIKey` middleware. -/
inductive AuthResult where
  | missingOrMalformed
  | invalid
  | authenticated
deriving DecidableEq

/-- `crypto.timingSafeEqual` on two equal-length buffers: content
equality (its timing behaviour has no observable counterpart in the
embedding). -/
def timingSafeEqual (a b : Str) : Bool := a == b

/-- The body of `authenticateAPIKey`, with the byte comparison abstracted
so that the length-mismatch short-circuit of
`token.length !== expectedKey.length || !crypto.timingSafeEqual(...)`
is visible: when the lengths differ the comparison function is never
consulted. -/
def authenticateWith (cmp : Str → Str → Bool) (authHeader : Option Str)
    (apiKey : Str) : AuthResult :=
  match authHeader with
  | none => AuthResult.missingOrMalformed
  | some h =>
    if bearerScheme.isPrefixOf h then
      let token := h.drop 7
      if token.length ≠ apiKey.length then AuthResult.invalid
      else if ¬ cmp token apiKey then AuthResult.invalid
      else AuthResult.authenticated
    else AuthResult.missingOrMalformed

/-- `authenticateAPIKey` from `server.js`: reject with 401 when the header
is absent or lacks the `"Bearer "` scheme, else compare the token after
the scheme against `config.apiKey` (length check, then
`crypto.timingSafeEqual`). -/
def authenticateAPIKey (authHeader : Option Str) (apiKey : Str) : AuthResult :=
  authenticateWith timingSafeEqual authHeader apiKey

/-- `limits.fileSize` of the multer configuration: `10 * 1024 * 1024`. -/
def MAX_FILE_SIZE : Nat := 10 * 1024 * 1024

/-- `allowedMimes` of the multer `fileFilter`. -/
def allowedMimes : List Str :=
  ["image/jpeg".toList, "image/png".toList, "image/webp".toList,
   "image/gif".toList]

/-- Hex digit characters as produced by `Buffer.toString('hex')`
(lowercase) and by decimal rendering for digits below 10. -/
def hexChar (n : Nat) : Char :=
  if n < 10 then Char.ofNat (48 + n) else Char.ofNat (87 + n)

/-- Fuel-driven big-endian decimal rendering of a positive natural. -/
def natDecimalAux : Nat → Nat → Str
  | 0, _ => []
  | fuel + 1, n =>
    if n = 0 then []
    else natDecimalAux fuel (n / 10) ++ [hexChar (n % 10)]

/-- Decimal rendering of a natural number, as JavaScript's template
literal renders `Date.now()` (a safe integer). -/
def natDecimal (n : Nat) : Str :=
  if n = 0 then ['0'] else natDecimalAux (n + 1) n

/-- `crypto.randomBytes(8).toString('hex')`: two lowercase hex digits per
byte, high nibble first (bytes are below 256, so `b / 16 % 16` is the
high nibble). -/
def bytesToHex : List Nat → Str
  | [] => []
  | b :: bs => hexChar (b / 16 % 16) :: hexChar (b % 16) :: bytesToHex bs

/-- `generateSafeFilename` from `server.js`:
`` `${timestamp}-${randomHash}.webp` `` where `timestamp` is `Date.now()`
and `randomHash` hex-encodes 8 random bytes.  The sources of
nondeterminism are parameters. -/
def generateSafeFilename (timestamp : Nat) (randomBytes : List Nat) : Str :=
  natDecimal timestamp ++ '-' :: bytesToHex randomBytes ++ ".webp".toList

/-- A decimal digit character, `[0-9]`. -/
def isDigitChar (c : Char) : Bool := 48 ≤ c.toNat && c.toNat ≤ 57

/-- A lowercase hex digit character, `[0-9a-f]`. -/
def isLowerHexChar (c : Char) : Bool :=
  isDigitChar c || (97 ≤ c.toNat && c.toNat ≤ 102)

/-- Decidable matcher for the documented filename shape
`^\d+-[0-9a-f]\x7b16\x7d\.webp$`: one or more decimal digits, a dash,
exactly 16 lowercase hex digits, and the literal suffix `.webp`. -/
def filenameShapeOK (s : Str) : Bool :=
  let ds := s.takeWhile isDigitChar
  let rest := s.dropWhile isDigitChar
  !ds.isEmpty &&
    match rest with
    | '-' :: r =>
        (r.take 16).length == 16 && (r.take 16).all isLowerHexChar &&
          (r.drop 16 == ".webp".toList)
    | _ => false

/-- Split a string at `'/'` separators, as Node's path handling does when
resolving a segment. -/
def splitOnSlash : Str → List Str
  | [] => [[]]
  | c :: cs =>
    let r := splitOnSlash cs
    if c = '/' then [] :: r
    else
      match r with
      | [] => [[c]]
      | h :: t => (c :: h) :: t

/-- Fold path components onto an already-resolved absolute base:
empty components and `"."` are dropped, `".."` pops the last base
component, anything else is appended.  This is Node's
`path.resolve(base, segment)` normalization for a relative segment. -/
def resolveComps : List Str → List Str → List Str
  | base, [] => base
  | base, c :: cs =>
    if c = [] ∨ c = ['.'] then resolveComps base cs
    else if c = ['.', '.'] then resolveComps base.dropLast cs
    else resolveComps (base ++ [c]) cs

/-- `path.resolve(config.uploadDir, filename)` with `config.uploadDir`
already resolved to the absolute path `root`: split the (relative)
filename into components and normalize them against `root`. -/
def pathResolve (root : List Str) (name : Str) : List Str :=
  resolveComps root (splitOnSlash name)

/-- Render an absolute path from its components, the string Node's
`path.resolve` returns (`"/a/b"` for components `["a", "b"]`). -/
def renderPath : List Str → Str
  | [] => []
  | c :: cs => '/' :: c ++ renderPath cs

/-- The containment check of the handler:
`outputPath.startsWith(path.resolve(config.uploadDir))`. -/
def pathCheck (root : List Str) (name : Str) : Bool :=
  (renderPath root).isPrefixOf (renderPath (pathResolve root name))

/-- `String.prototype.includes` on our string model. -/
def strContains : Str → Str → Bool
  | s, pat =>
    pat.isPrefixOf s ||
      match s with
      | [] => false
      | _ :: t => strContains t pat

/-- The `catch` block of the upload handler: `ENOSPC` write failures map
to 507, errors whose message includes `"Input buffer"` map to 400, and
everything else maps to 500 with the fixed error string and the
underlying `error.message` echoed in the `message` field. -/
def catchBlock (e : JsError) : UploadResponse :=
  if e.code = some "ENOSPC".toList then
    { status := 507, error := some "Insufficient storage space on server.".toList }
  else if strContains e.message "Input buffer".toList then
    { status := 400, error := some "Invalid or corrupted image file.".toList }
  else
    { status := 500, error := some "Failed to process image".toList,
      message := some e.message }

/-- The `try` block of the upload handler, for a request that passed
authentication and multer.  `filename` is the value
`generateSafeFilename()` returned, and `writeResult` is the outcome of
the `toFile` write (`some e` when the filesystem write rejects with
`e`).  Mirrors the source order: decode metadata, compute the output
path, check containment, transcode and write, build the 201 payload.
Errors are thrown to the `catch` block. -/
def tryBody (cfg : Config) (filename : Str) (writeResult : Option JsError)
    (f : UploadedFile) (store : List StoredArtifact) :
    Except JsError (UploadResponse × List StoredArtifact) := do
  let metadata ← sharpMetadata f.buffer
  let isGif := metadata.format == ImageFormat.gif
  let outputPath := pathResolve cfg.uploadDir filename
  if ¬ (renderPath cfg.uploadDir).isPrefixOf (renderPath outputPath) then
    throw ⟨none, "Invalid file path".toList⟩
  else
    match writeResult with
    | some e => throw e
    | none =>
      let encoded := sharpEncode metadata isGif
      let art : StoredArtifact := ⟨filename, encoded.1, encoded.2.1, encoded.2.2⟩
      pure ({ status := 201, success := true,
              url := some (cfg.baseUrl ++ "/images/".toList ++ filename),
              filename := some filename,
              originalFormat := some metadata.format,
              size := some (metadata.width, metadata.height) },
            store ++ [art])

/-- The `POST /upload` handler: `authenticateAPIKey` middleware, then
`upload.single('image')` (multer's `fileFilter` MIME whitelist and
`limits.fileSize` ceiling, surfaced as the 400/413 responses of the
handler's error branch), then the missing-file check, then the
`try`/`catch` processing stage.  `timestamp` and `randomBytes` feed
`generateSafeFilename`; `writeResult` is the outcome of the `toFile`
write.  Returns the response and the new storage contents. -/
def handleUpload (cfg : Config) (timestamp : Nat) (randomBytes : List Nat)
    (writeResult : Option JsError) (req : UploadRequest)
    (store : List StoredArtifact) : UploadResponse × List StoredArtifact :=
  match authenticateAPIKey req.authorization cfg.apiKey with
  | AuthResult.missingOrMalformed =>
      ({ status := 401,
         error := some "Missing or invalid authorization header".toList,
         message := some "Authorization header must be in format: Bearer YOUR_API_KEY".toList },
       store)
  | AuthResult.invalid =>
      ({ status := 403, error := some "Invalid API key".toList }, store)
  | AuthResult.authenticated =>
    match req.file with
    | none =>
        ({ status := 400,
           error := some "No image file provided. Use multipart/form-data with field name \"image\".".toList },
         store)
    | some f =>
      if f.mimetype ∉ allowedMimes then
        ({ status := 400,
           error := some "Invalid file type. Only JPEG, PNG, WebP, and GIF images are allowed.".toList },
         store)
      else if f.size > MAX_FILE_SIZE then
        ({ status := 413,
           error := some "File too large. Maximum size is 10MB.".toList },
         store)
      else
        match tryBody cfg (generateSafeFilename timestamp randomBytes)
            writeResult f store with
        | Except.ok r => r
        | Except.error e => (catchBlock e, store)

/-! Concrete fixtures used by the witness and counterexample theorems. -/

/-- A 32-character API key, as the startup validation requires. -/
def testKey : Str := "0123456789abcdef0123456789abcdef".toList

/-- A concrete configuration with upload directory `/srv/uploads`. -/
def testConfig : Config :=
  ⟨testKey, ["srv".toList, "uploads".toList], "http://localhost:3000".toList⟩

/-- Eight concrete random bytes. -/
def testBytes : List Nat := [0, 1, 171, 255, 16, 32, 64, 128]

/-- A correctly authenticated `Authorization` header for `testKey`. -/
def authedHeader : Option Str := some (bearerScheme ++ testKey)

/-- A 4x3 JPEG carrying EXIF orientation 6 (a 90-degree rotation, one of
the transposing orientations). -/
def rotatedImage : SourceImage := ⟨ImageFormat.jpeg, 4, 3, 6, 1⟩

/-- An upload of `rotatedImage`. -/
def rotatedFile : UploadedFile :=
  ⟨"photo.jpg".toList, "image/jpeg".toList, 1000, Buffer.image rotatedImage 1000⟩

/-- An authenticated request carrying `rotatedFile`. -/
def rotatedRequest : UploadRequest := ⟨authedHeader, some rotatedFile⟩

/-- A zero-byte upload declared as PNG: whitelisted MIME type, within the
size limit, but sharp cannot decode it. -/
def emptyFile : UploadedFile := ⟨"e.png".toList, "image/png".toList, 0, Buffer.empty⟩

/-- An authenticated request carrying `emptyFile`. -/
def emptyRequest : UploadRequest := ⟨authedHeader, some emptyFile⟩

/-- A plain still 8x5 PNG with no orientation correction needed. -/
def stillImage : SourceImage := ⟨ImageFormat.png, 8, 5, 1, 1⟩

/-- An upload of `stillImage` of exactly the maximum accepted size. -/
def maxSizeFile : UploadedFile :=
  ⟨"big.png".toList, "image/png".toList, 10485760, Buffer.image stillImage 10485760⟩

/-- An authenticated request carrying `maxSizeFile`. -/
def maxSizeRequest : UploadRequest := ⟨authedHeader, some maxSizeFile⟩

/-- An upload one byte over the ceiling (content never inspected). -/
def oversizeFile : UploadedFile :=
  ⟨"huge.png".toList, "image/png".toList, 10485761, Buffer.corrupt true 10485761⟩

/-- An authenticated request carrying `oversizeFile`. -/
def oversizeRequest : UploadRequest := ⟨authedHeader, some oversizeFile⟩

/-- A 7-frame animated 10x12 GIF. -/
def gifImage : SourceImage := ⟨ImageFormat.gif, 10, 12, 1, 7⟩

/-- An upload of `gifImage`. -/
def gifFile : UploadedFile :=
  ⟨"anim.gif".toList, "image/gif".toList, 2000, Buffer.image gifImage 2000⟩

/-- An authenticated request carrying `gifFile`. -/
def gifRequest : UploadRequest := ⟨authedHeader, some gifFile⟩

/-- A non-empty buffer with a corrupt header, declared as GIF. -/
def corruptFile : UploadedFile :=
  ⟨"c.gif".toList, "image/gif".toList, 50, Buffer.corrupt false 50⟩

/-- An authenticated request carrying `corruptFile`. -/
def corruptRequest : UploadRequest := ⟨authedHeader, some corruptFile⟩

/-- A write failure with no `code` property, as a generic I/O fault. -/
def bootError : JsError := ⟨none, "boom".toList⟩

/-! Helper lemmas about the embedded definitions. -/

theorem hexChar_isDigit : ∀ d : Nat, d < 10 → isDigitChar (hexChar d) = true := by
  decide

theorem hexChar_isHex : ∀ d : Nat, d < 16 → isLowerHexChar (hexChar d) = true := by
  decide

theorem natDecimalAux_digits :
    ∀ fuel n : Nat, ∀ c ∈ natDecimalAux fuel n, isDigitChar c = true := by
  intro fuel
  induction fuel with
  | zero => intro n c hc; simp [natDecimalAux] at hc
  | succ fuel ih =>
    intro n c hc
    by_cases hn : n = 0
    · simp [natDecimalAux, hn] at hc
    · simp only [natDecimalAux, if_neg hn, List.mem_append, List.mem_singleton] at hc
      rcases hc with hc | hc
      · exact ih (n / 10) c hc
      · subst hc
        exact hexChar_isDigit (n % 10) (Nat.mod_lt n (by omega))

theorem natDecimal_digits (n : Nat) : ∀ c ∈ natDecimal n, isDigitChar c = true := by
  intro c hc
  by_cases hn : n = 0
  · simp [natDecimal, hn] at hc
    subst hc; decide
  · simp only [natDecimal, if_neg hn] at hc
    exact natDecimalAux_digits (n + 1) n c hc

theorem natDecimal_ne_nil (n : Nat) : natDecimal n ≠ [] := by
  by_cases hn : n = 0
  · simp [natDecimal, hn]
  · simp [natDecimal, natDecimalAux, hn]

theorem bytesToHex_hex :
    ∀ bs : List Nat, ∀ c ∈ bytesToHex bs, isLowerHexChar c = true := by
  intro bs
  induction bs with
  | nil => intro c hc; simp [bytesToHex] at hc
  | cons b bs ih =>
    intro c hc
    simp only [bytesToHex, List.mem_cons] at hc
    rcases hc with hc | hc | hc
    · subst hc; exact hexChar_isHex _ (Nat.mod_lt _ (by omega))
    · subst hc; exact hexChar_isHex _ (Nat.mod_lt _ (by omega))
    · exact ih c hc

theorem bytesToHex_length (bs : List Nat) :
    (bytesToHex bs).length = 2 * bs.length := by
  induction bs with
  | nil => simp [bytesToHex]
  | cons b bs ih => simp [bytesToHex, ih]; omega

theorem isDigitChar_ne_slash {c : Char} (h : isDigitChar c = true) : c ≠ '/' := by
  intro he; subst he; simp [isDigitChar] at h

theorem isLowerHexChar_ne_slash {c : Char} (h : isLowerHexChar c = true) :
    c ≠ '/' := by
  intro he; subst he; simp [isLowerHexChar, isDigitChar] at h

theorem generateSafeFilename_no_slash (t : Nat) (r : List Nat) :
    ∀ c ∈ generateSafeFilename t r, c ≠ '/' := by
  intro c hc
  simp only [generateSafeFilename] at hc
  rcases List.mem_append.mp hc with h1 | h2
  · rcases List.mem_append.mp h1 with h3 | h4
    · exact isDigitChar_ne_slash (natDecimal_digits t c h3)
    · rcases List.mem_cons.mp h4 with h5 | h6
      · subst h5; decide
      · exact isLowerHexChar_ne_slash (bytesToHex_hex r c h6)
  · intro he; subst he; exact absurd h2 (by decide)

theorem generateSafeFilename_length (t : Nat) (r : List Nat) :
    7 ≤ (generateSafeFilename t r).length := by
  have h1 : 1 ≤ (natDecimal t).length :=
    List.length_pos.mpr (natDecimal_ne_nil t)
  simp [generateSafeFilename]
  omega

theorem splitOnSlash_no_slash :
    ∀ s : Str, (∀ c ∈ s, c ≠ '/') → splitOnSlash s = [s] := by
  intro s
  induction s with
  | nil => intro _; rfl
  | cons c cs ih =>
    intro h
    have hc : c ≠ '/' := h c (List.mem_cons_self c cs)
    have hcs : splitOnSlash cs = [cs] := ih fun x hx => h x (List.mem_cons_of_mem c hx)
    simp [splitOnSlash, hcs, if_neg hc]

theorem resolveComps_single (base : List Str) (f : Str) (h0 : f ≠ [])
    (h1 : f ≠ ['.']) (h2 : f ≠ ['.', '.']) :
    resolveComps base [f] = base ++ [f] := by
  simp [resolveComps, h0, h1, h2]

theorem pathResolve_generated (root : List Str) (t : Nat) (r : List Nat) :
    pathResolve root (generateSafeFilename t r) =
      root ++ [generateSafeFilename t r] := by
  have hlen := generateSafeFilename_length t r
  have hsplit := splitOnSlash_no_slash _ (generateSafeFilename_no_slash t r)
  rw [pathResolve, hsplit]
  refine resolveComps_single root _ ?_ ?_ ?_
  · intro he; rw [he] at hlen; simp at hlen
  · intro he; rw [he] at hlen; simp at hlen
  · intro he; rw [he] at hlen; simp at hlen

theorem renderPath_concat (xs : List Str) (y : Str) :
    renderPath (xs ++ [y]) = renderPath xs ++ '/' :: y := by
  induction xs with
  | nil => simp [renderPath]
  | cons c cs ih => simp [renderPath, ih]

theorem isPrefixOf_append_self (l r : Str) : l.isPrefixOf (l ++ r) = true := by
  induction l with
  | nil => simp
  | cons c cs ih => simp [List.isPrefixOf, ih]

theorem pathCheck_generated (root : List Str) (t : Nat) (r : List Nat) :
    pathCheck root (generateSafeFilename t r) = true := by
  rw [pathCheck, pathResolve_generated, renderPath_concat]
  exact isPrefixOf_append_self _ _

theorem drop_len_append : ∀ p s : Str, (p ++ s).drop p.length = s := by
  intro p s
  induction p with
  | nil => rfl
  | cons c cs ih => simp [ih]

theorem isPrefixOf_append_drop :
    ∀ p s : Str, p.isPrefixOf s = true → s = p ++ s.drop p.length := by
  intro p
  induction p with
  | nil => intro s _; rfl
  | cons a as ih =>
    intro s hp
    cases s with
    | nil => simp [List.isPrefixOf] at hp
    | cons b bs =>
      rw [List.isPrefixOf_cons₂, Bool.and_eq_true] at hp
      have hab : a = b := eq_of_beq hp.1
      subst hab
      have := ih bs hp.2
      simp only [List.length_cons, List.drop_succ_cons, List.cons_append]
      exact congrArg (a :: ·) this

theorem bearerScheme_len : bearerScheme.length = 7 := by decide

theorem authenticateAPIKey_good (k : Str) :
    authenticateAPIKey (some (bearerScheme ++ k)) k = AuthResult.authenticated := by
  have hd : (bearerScheme ++ k).drop 7 = k := by
    have h := drop_len_append bearerScheme k
    rwa [bearerScheme_len] at h
  simp [authenticateAPIKey, authenticateWith, isPrefixOf_append_self, hd,
    timingSafeEqual]

theorem authenticateAPIKey_eq_authenticated_iff (h : Option Str) (k : Str) :
    authenticateAPIKey h k = AuthResult.authenticated ↔
      h = some (bearerScheme ++ k) := by
  constructor
  · intro ha
    cases h with
    | none => simp [authenticateAPIKey, authenticateWith] at ha
    | some s =>
      simp only [authenticateAPIKey, authenticateWith] at ha
      split_ifs at ha with hp h1 h2
      have hk : s.drop 7 = k :=
        eq_of_beq (by simpa [timingSafeEqual] using h2)
      have hs : s = bearerScheme ++ s.drop 7 := by
        have hd := isPrefixOf_append_drop bearerScheme s hp
        rwa [bearerScheme_len] at hd
      rw [hk] at hs
      rw [hs]
  · intro he
    rw [he]
    exact authenticateAPIKey_good k

theorem handleUpload_authFail (cfg : Config) (t : Nat) (r : List Nat)
    (w : Option JsError) (req : UploadRequest) (store : List StoredArtifact)
    (hne : req.authorization ≠ some (bearerScheme ++ cfg.apiKey)) :
    ((handleUpload cfg t r w req store).1.status = 401 ∨
        (handleUpload cfg t r w req store).1.status = 403) ∧
      (handleUpload cfg t r w req store).2 = store := by
  have hnauth : authenticateAPIKey req.authorization cfg.apiKey ≠
      AuthResult.authenticated := by
    intro ha
    exact hne ((authenticateAPIKey_eq_authenticated_iff _ _).mp ha)
  cases hv : authenticateAPIKey req.authorization cfg.apiKey with
  | missingOrMalformed => simp [handleUpload, hv]
  | invalid => simp [handleUpload, hv]
  | authenticated => exact absurd hv hnauth

theorem handleUpload_accepts (cfg : Config) (t : Nat) (r : List Nat)
    (req : UploadRequest) (store : List StoredArtifact) (f : UploadedFile)
    (img : SourceImage) (sz : Nat)
    (hauth : req.authorization = some (bearerScheme ++ cfg.apiKey))
    (hfile : req.file = some f)
    (hmime : f.mimetype ∈ allowedMimes)
    (hsize : f.size ≤ MAX_FILE_SIZE)
    (hbuf : f.buffer = Buffer.image img sz) :
    handleUpload cfg t r none req store =
      ({ status := 201, success := true,
         url := some (cfg.baseUrl ++ "/images/".toList ++ generateSafeFilename t r),
         filename := some (generateSafeFilename t r),
         originalFormat := some img.format,
         size := some (img.width, img.height) },
       store ++ [⟨generateSafeFilename t r,
         (sharpEncode img (img.format == ImageFormat.gif)).1,
         (sharpEncode img (img.format == ImageFormat.gif)).2.1,
         (sharpEncode img (img.format == ImageFormat.gif)).2.2⟩]) := by
  have hv : authenticateAPIKey req.authorization cfg.apiKey =
      AuthResult.authenticated := by
    rw [hauth]; exact authenticateAPIKey_good _
  have hnot : ¬ f.mimetype ∉ allowedMimes := not_not_intro hmime
  have hns : ¬ f.size > MAX_FILE_SIZE := not_lt.mpr hsize
  have hpc : (renderPath cfg.uploadDir).isPrefixOf
      (renderPath (pathResolve cfg.uploadDir (generateSafeFilename t r))) = true :=
    pathCheck_generated cfg.uploadDir t r
  have ht : tryBody cfg (generateSafeFilename t r) none f store =
      Except.ok
        ({ status := 201, success := true,
           url := some (cfg.baseUrl ++ "/images/".toList ++ generateSafeFilename t r),
           filename := some (generateSafeFilename t r),
           originalFormat := some img.format,
           size := some (img.width, img.height) },
         store ++ [⟨generateSafeFilename t r,
           (sharpEncode img (img.format == ImageFormat.gif)).1,
           (sharpEncode img (img.format == ImageFormat.gif)).2.1,
           (sharpEncode img (img.format == ImageFormat.gif)).2.2⟩]) := by
    simp [tryBody, hbuf, sharpMetadata, Except.bind, hpc, pure, Except.pure]
    rfl
  simp only [handleUpload, hv, hfile, if_neg hnot, if_neg hns, ht]

theorem handleUpload_oversize (cfg : Config) (t : Nat) (r : List Nat)
    (w : Option JsError) (req : UploadRequest) (store : List StoredArtifact)
    (f : UploadedFile)
    (hauth : req.authorization = some (bearerScheme ++ cfg.apiKey))
    (hfile : req.file = some f)
    (hmime : f.mimetype ∈ allowedMimes)
    (hbig : f.size > MAX_FILE_SIZE) :
    handleUpload cfg t r w req store =
      ({ status := 413,
         error := some "File too large. Maximum size is 10MB.".toList },
       store) := by
  have hv : authenticateAPIKey req.authorization cfg.apiKey =
      AuthResult.authenticated := by
    rw [hauth]; exact authenticateAPIKey_good _
  have hnot : ¬ f.mimetype ∉ allowedMimes := not_not_intro hmime
  simp only [handleUpload, hv, hfile, if_neg hnot, if_pos hbig]

theorem handleUpload_catch (cfg : Config) (t : Nat) (r : List Nat)
    (w : Option JsError) (req : UploadRequest) (store : List StoredArtifact)
    (f : UploadedFile) (e : JsError)
    (hauth : req.authorization = some (bearerScheme ++ cfg.apiKey))
    (hfile : req.file = some f)
    (hmime : f.mimetype ∈ allowedMimes)
    (hsize : f.size ≤ MAX_FILE_SIZE)
    (herr : tryBody cfg (generateSafeFilename t r) w f store = Except.error e) :
    handleUpload cfg t r w req store = (catchBlock e, store) := by
  have hv : authenticateAPIKey req.authorization cfg.apiKey =
      AuthResult.authenticated := by
    rw [hauth]; exact authenticateAPIKey_good _
  have hnot : ¬ f.mimetype ∉ allowedMimes := not_not_intro hmime
  have hns : ¬ f.size > MAX_FILE_SIZE := not_lt.mpr hsize
  simp only [handleUpload, hv, hfile, if_neg hnot, if_neg hns, herr]

theorem tryBody_corrupt (cfg : Config) (name : Str) (w : Option JsError)
    (f : UploadedFile) (store : List StoredArtifact) (u : Bool) (bsz : Nat)
    (hbuf : f.buffer = Buffer.corrupt u bsz) :
    tryBody cfg name w f store =
      Except.error ⟨none,
        (if u then "Input buffer contains unsupported image format"
         else "Input buffer has corrupt header").toList⟩ := by
  simp only [tryBody, hbuf, sharpMetadata]
  rfl

theorem tryBody_empty (cfg : Config) (name : Str) (w : Option JsError)
    (f : UploadedFile) (store : List StoredArtifact)
    (hbuf : f.buffer = Buffer.empty) :
    tryBody cfg name w f store =
      Except.error ⟨none, "Input Buffer is empty".toList⟩ := by
  simp only [tryBody, hbuf, sharpMetadata]
  rfl

theorem tryBody_badPath (cfg : Config) (name : Str) (w : Option JsError)
    (f : UploadedFile) (store : List StoredArtifact) (img : SourceImage)
    (sz : Nat) (hbuf : f.buffer = Buffer.image img sz)
    (hpc : pathCheck cfg.uploadDir name = false) :
    tryBody cfg name w f store =
      Except.error ⟨none, "Invalid file path".toList⟩ := by
  rw [pathCheck] at hpc
  simp [tryBody, hbuf, sharpMetadata, Except.bind, hpc]
  rfl

theorem tryBody_writeFail (cfg : Config) (name : Str) (e : JsError)
    (f : UploadedFile) (store : List StoredArtifact) (img : SourceImage)
    (sz : Nat) (hbuf : f.buffer = Buffer.image img sz)
    (hpc : pathCheck cfg.uploadDir name = true) :
    tryBody cfg name (some e) f store = Except.error e := by
  rw [pathCheck] at hpc
  simp [tryBody, hbuf, sharpMetadata, Except.bind, hpc]
  rfl

theorem takeWhile_append_all {p : Char → Bool} :
    ∀ l₁ l₂ : Str, (∀ c ∈ l₁, p c = true) →
      (l₁ ++ l₂).takeWhile p = l₁ ++ l₂.takeWhile p := by
  intro l₁
  induction l₁ with
  | nil => intro l₂ _; rfl
  | cons c cs ih =>
    intro l₂ h
    have hc : p c = true := h c (List.mem_cons_self c cs)
    simp [List.takeWhile_cons, hc, ih l₂ fun x hx => h x (List.mem_cons_of_mem c hx)]

theorem dropWhile_append_all {p : Char → Bool} :
    ∀ l₁ l₂ : Str, (∀ c ∈ l₁, p c = true) →
      (l₁ ++ l₂).dropWhile p = l₂.dropWhile p := by
  intro l₁
  induction l₁ with
  | nil => intro l₂ _; rfl
  | cons c cs ih =>
    intro l₂ h
    have hc : p c = true := h c (List.mem_cons_self c cs)
    simp [List.dropWhile_cons, hc, ih l₂ fun x hx => h x (List.mem_cons_of_mem c hx)]

theorem take_len_append : ∀ p s : Str, (p ++ s).take p.length = p := by
  intro p s
  induction p with
  | nil => rfl
  | cons c cs ih => simp [ih]

theorem filenameShapeOK_generated (t : Nat) (r : List Nat) (hlen : r.length = 8) :
    filenameShapeOK (generateSafeFilename t r) = true := by
  have hhex : (bytesToHex r).length = 16 := by
    rw [bytesToHex_length, hlen]
  have hassoc : generateSafeFilename t r =
      natDecimal t ++ ('-' :: (bytesToHex r ++ ".webp".toList)) := by
    simp [generateSafeFilename]
  have hdash : isDigitChar '-' = false := by decide
  have htw : (generateSafeFilename t r).takeWhile isDigitChar = natDecimal t := by
    rw [hassoc, takeWhile_append_all _ _ (natDecimal_digits t),
      List.takeWhile_cons, hdash]
    simp
  have hdw : (generateSafeFilename t r).dropWhile isDigitChar =
      '-' :: (bytesToHex r ++ ".webp".toList) := by
    rw [hassoc, dropWhile_append_all _ _ (natDecimal_digits t),
      List.dropWhile_cons, hdash]
    simp
  have htake : (bytesToHex r ++ ".webp".toList).take 16 = bytesToHex r := by
    have h := take_len_append (bytesToHex r) ".webp".toList
    rwa [hhex] at h
  have hdrop : (bytesToHex r ++ ".webp".toList).drop 16 = ".webp".toList := by
    have h := drop_len_append (bytesToHex r) ".webp".toList
    rwa [hhex] at h
  have hall : (bytesToHex r).all isLowerHexChar = true :=
    List.all_eq_true.mpr fun c hc => bytesToHex_hex r c hc
  rw [filenameShapeOK]
  simp only [htw, hdw, htake, hdrop, hall]
  simp [natDecimal_ne_nil t, hhex]

theorem authenticateAPIKey_invalid_of_ne (s k : Str)
    (hp : bearerScheme.isPrefixOf s = true) (hne : s.drop 7 ≠ k) :
    authenticateAPIKey (some s) k = AuthResult.invalid := by
  simp only [authenticateAPIKey, authenticateWith]
  rw [if_pos hp]
  by_cases h1 : (s.drop 7).length ≠ k.length
  · rw [if_pos h1]
  · rw [if_neg h1]
    have h2 : ¬ timingSafeEqual (s.drop 7) k = true := by
      intro ht
      exact hne (eq_of_beq (by simpa [timingSafeEqual] using ht))
    rw [if_pos h2]

/-! The claims. -/

/-- C4: on `POST /upload`, a missing `Authorization` header or one without
the literal `"Bearer "` scheme yields status 401; with the scheme, the
token is the substring after the scheme and any mismatch with the
configured secret yields status 403; when the token length differs from
the secret length the verdict is Invalid for every byte-comparison
function whatsoever (so the timing-safe comparison is never consulted);
an exact token match authenticates the request. -/
theorem upload_auth_protocol_c4 (cfg : Config) (t : Nat) (r : List Nat)
    (w : Option JsError) (req : UploadRequest) (store : List StoredArtifact) :
    ((req.authorization = none ∨
        (∃ s, req.authorization = some s ∧ bearerScheme.isPrefixOf s = false)) →
      (handleUpload cfg t r w req store).1.status = 401) ∧
    (∀ s, req.authorization = some s → bearerScheme.isPrefixOf s = true →
      s.drop 7 ≠ cfg.apiKey →
        (handleUpload cfg t r w req store).1.status = 403) ∧
    (∀ s, req.authorization = some s → bearerScheme.isPrefixOf s = true →
      s.drop 7 = cfg.apiKey →
        authenticateAPIKey req.authorization cfg.apiKey =
          AuthResult.authenticated) ∧
    (∀ (cmp : Str → Str → Bool) (s : Str), req.authorization = some s →
      bearerScheme.isPrefixOf s = true →
      (s.drop 7).length ≠ cfg.apiKey.length →
        authenticateWith cmp req.authorization cfg.apiKey =
          AuthResult.invalid) := by
  refine ⟨?_, ?_, ?_, ?_⟩
  · intro hmiss
    have hv : authenticateAPIKey req.authorization cfg.apiKey =
        AuthResult.missingOrMalformed := by
      rcases hmiss with hnone | ⟨s, hs, hp⟩
      · rw [hnone]; rfl
      · rw [hs]
        simp only [authenticateAPIKey, authenticateWith]
        rw [if_neg (by simp [hp])]
    simp [handleUpload, hv]
  · intro s hs hp hne
    have hv : authenticateAPIKey req.authorization cfg.apiKey =
        AuthResult.invalid := by
      rw [hs]; exact authenticateAPIKey_invalid_of_ne s cfg.apiKey hp hne
    simp [handleUpload, hv]
  · intro s hs hp heq
    have hseq : s = bearerScheme ++ cfg.apiKey := by
      have hd := isPrefixOf_append_drop bearerScheme s hp
      rw [bearerScheme_len, heq] at hd
      exact hd
    rw [hs, hseq]
    exact authenticateAPIKey_good cfg.apiKey
  · intro cmp s hs hp hlen
    rw [hs]
    simp only [authenticateWith]
    rw [if_pos hp, if_pos hlen]

/-- Witness for C4: at concrete requests, a missing header gives 401, a
wrong same-scheme token gives 403, the correct token authenticates, and a
wrong-length token is rejected even by an always-true comparison
function. -/
theorem upload_auth_protocol_c4_witness :
    (handleUpload testConfig 5 testBytes none ⟨none, some rotatedFile⟩
        []).1.status = 401 ∧
    (handleUpload testConfig 5 testBytes none
        ⟨some "Bearer wrongwrongwrongwrongwrongwrong".toList, some rotatedFile⟩
        []).1.status = 403 ∧
    authenticateAPIKey (some ("Bearer ".toList ++ testKey)) testConfig.apiKey =
      AuthResult.authenticated ∧
    authenticateWith (fun _ _ => true) (some "Bearer short".toList)
      testConfig.apiKey = AuthResult.invalid := by
  refine ⟨?_, ?_, ?_, ?_⟩
  · exact (upload_auth_protocol_c4 testConfig 5 testBytes none
      ⟨none, some rotatedFile⟩ []).1 (Or.inl rfl)
  · exact (upload_auth_protocol_c4 testConfig 5 testBytes none
      ⟨some "Bearer wrongwrongwrongwrongwrongwrong".toList, some rotatedFile⟩
      []).2.1 _ rfl (by decide) (by decide)
  · exact (upload_auth_protocol_c4 testConfig 5 testBytes none
      ⟨some ("Bearer ".toList ++ testKey), some rotatedFile⟩ []).2.2.1 _ rfl
      (by decide) (by decide)
  · exact (upload_auth_protocol_c4 testConfig 5 testBytes none
      ⟨some "Bearer short".toList, some rotatedFile⟩ []).2.2.2 _ _ rfl
      (by decide) (by decide)

/-- C5: a request whose `Authorization` header does not carry a Bearer
token equal to the configured secret is answered with status 401 or 403,
and the storage directory is left exactly as it was. -/
theorem auth_failure_no_write_c5 (cfg : Config) (t : Nat) (r : List Nat)
    (w : Option JsError) (req : UploadRequest) (store : List StoredArtifact)
    (hne : req.authorization ≠ some (bearerScheme ++ cfg.apiKey)) :
    ((handleUpload cfg t r w req store).1.status = 401 ∨
        (handleUpload cfg t r w req store).1.status = 403) ∧
      (handleUpload cfg t r w req store).2 = store :=
  handleUpload_authFail cfg t r w req store hne

/-- Witness for C5: a wrong token over a valid image leaves the (empty)
store empty and yields 401 or 403. -/
theorem auth_failure_no_write_c5_witness :
    ((handleUpload testConfig 5 testBytes none
          ⟨some "Bearer 0123456789abcdef0123456789abcdeX".toList,
           some rotatedFile⟩ []).1.status = 401 ∨
        (handleUpload testConfig 5 testBytes none
          ⟨some "Bearer 0123456789abcdef0123456789abcdeX".toList,
           some rotatedFile⟩ []).1.status = 403) ∧
      (handleUpload testConfig 5 testBytes none
        ⟨some "Bearer 0123456789abcdef0123456789abcdeX".toList,
         some rotatedFile⟩ []).2 = [] :=
  auth_failure_no_write_c5 testConfig 5 testBytes none
    ⟨some "Bearer 0123456789abcdef0123456789abcdeX".toList, some rotatedFile⟩
    [] (by decide)

/-- C9: rejection of an invalid credential is deterministic and
state-free — resubmitting the same invalid `Authorization` header (with
possibly different timestamps, random bytes and write outcomes) yields
the same status, and neither attempt changes the store. -/
theorem rejection_idempotent_c9 (cfg : Config) (t₁ t₂ : Nat)
    (r₁ r₂ : List Nat) (w₁ w₂ : Option JsError) (req : UploadRequest)
    (store : List StoredArtifact)
    (hne : req.authorization ≠ some (bearerScheme ++ cfg.apiKey)) :
    (handleUpload cfg t₂ r₂ w₂ req
        (handleUpload cfg t₁ r₁ w₁ req store).2).1.status =
      (handleUpload cfg t₁ r₁ w₁ req store).1.status ∧
    (handleUpload cfg t₁ r₁ w₁ req store).2 = store ∧
    (handleUpload cfg t₂ r₂ w₂ req
        (handleUpload cfg t₁ r₁ w₁ req store).2).2 = store := by
  have hnauth : authenticateAPIKey req.authorization cfg.apiKey ≠
      AuthResult.authenticated := fun ha =>
    hne ((authenticateAPIKey_eq_authenticated_iff _ _).mp ha)
  cases hv : authenticateAPIKey req.authorization cfg.apiKey with
  | missingOrMalformed => simp [handleUpload, hv]
  | invalid => simp [handleUpload, hv]
  | authenticated => exact absurd hv hnauth

/-- Witness for C9: the same non-Bearer header submitted twice gets the
same status and never touches the store. -/
theorem rejection_idempotent_c9_witness :
    (handleUpload testConfig 6 testBytes none
        ⟨some "Token abc".toList, some rotatedFile⟩
        (handleUpload testConfig 5 testBytes none
          ⟨some "Token abc".toList, some rotatedFile⟩ []).2).1.status =
      (handleUpload testConfig 5 testBytes none
        ⟨some "Token abc".toList, some rotatedFile⟩ []).1.status ∧
    (handleUpload testConfig 5 testBytes none
        ⟨some "Token abc".toList, some rotatedFile⟩ []).2 = [] ∧
    (handleUpload testConfig 6 testBytes none
        ⟨some "Token abc".toList, some rotatedFile⟩
        (handleUpload testConfig 5 testBytes none
          ⟨some "Token abc".toList, some rotatedFile⟩ []).2).2 = [] :=
  rejection_idempotent_c9 testConfig 5 6 testBytes testBytes none none
    ⟨some "Token abc".toList, some rotatedFile⟩ [] (by decide)

/-- C1 is false on the code: a 4x3 JPEG with EXIF orientation 6 is
accepted with `size` reporting the pre-rotation 4x3 from
`sharp().metadata()`, while the auto-rotated artifact written to disk is
3x4 — the stored dimensions are not the ones in the `size` field. -/
theorem upload_size_field_c1_counterexample :
    (handleUpload testConfig 1700000000000 testBytes none rotatedRequest
        []).1.status = 201 ∧
    (handleUpload testConfig 1700000000000 testBytes none rotatedRequest
        []).1.size = some (4, 3) ∧
    ((handleUpload testConfig 1700000000000 testBytes none rotatedRequest
        []).2.map fun a => (a.width, a.height)) = [(3, 4)] ∧
    ¬ ((handleUpload testConfig 1700000000000 testBytes none rotatedRequest
        []).2.map fun a => (a.width, a.height)) = [(4, 3)] := by
  decide

/-- C1 (amended): for every accepted upload the response `size` field is
the decoder's pre-rotation width and height, and the stored WebP's pixel
dimensions equal the `size` field exactly when the EXIF orientation is
not one of the transposing values 5–8; for orientations 5–8 the stored
dimensions are the `size` field transposed. -/
theorem upload_size_field_c1 (cfg : Config) (t : Nat) (r : List Nat)
    (req : UploadRequest) (store : List StoredArtifact) (f : UploadedFile)
    (img : SourceImage) (sz : Nat)
    (hauth : req.authorization = some (bearerScheme ++ cfg.apiKey))
    (hfile : req.file = some f)
    (hmime : f.mimetype ∈ allowedMimes)
    (hsize : f.size ≤ MAX_FILE_SIZE)
    (hbuf : f.buffer = Buffer.image img sz) :
    ∃ art : StoredArtifact,
      (handleUpload cfg t r none req store).2 = store ++ [art] ∧
      (handleUpload cfg t r none req store).1.size =
        some (img.width, img.height) ∧
      (¬ (5 ≤ img.orientation ∧ img.orientation ≤ 8) →
        (art.width, art.height) = (img.width, img.height)) ∧
      ((5 ≤ img.orientation ∧ img.orientation ≤ 8) →
        (art.width, art.height) = (img.height, img.width)) := by
  have h := handleUpload_accepts cfg t r req store f img sz hauth hfile hmime
    hsize hbuf
  refine ⟨_, by rw [h], by rw [h], ?_, ?_⟩
  · intro hor
    simp [sharpEncode, if_neg hor]
  · intro hor
    simp [sharpEncode, if_pos hor]

/-- Witness for the amended C1 at the orientation-6 fixture. -/
theorem upload_size_field_c1_witness :
    ∃ art : StoredArtifact,
      (handleUpload testConfig 5 testBytes none rotatedRequest []).2 =
        [] ++ [art] ∧
      (handleUpload testConfig 5 testBytes none rotatedRequest []).1.size =
        some (rotatedImage.width, rotatedImage.height) ∧
      (¬ (5 ≤ rotatedImage.orientation ∧ rotatedImage.orientation ≤ 8) →
        (art.width, art.height) = (rotatedImage.width, rotatedImage.height)) ∧
      ((5 ≤ rotatedImage.orientation ∧ rotatedImage.orientation ≤ 8) →
        (art.width, art.height) = (rotatedImage.height, rotatedImage.width)) :=
  upload_size_field_c1 testConfig 5 testBytes rotatedRequest [] rotatedFile
    rotatedImage 1000 rfl rfl (by decide) (by decide) rfl

/-- C2: for every accepted upload the transcoder's animated flag is set
iff the decoded source format is GIF, and the stored artifact carries the
full source frame count exactly when the flag is set, a single still
frame otherwise. -/
theorem animated_iff_gif_c2 (cfg : Config) (t : Nat) (r : List Nat)
    (req : UploadRequest) (store : List StoredArtifact) (f : UploadedFile)
    (img : SourceImage) (sz : Nat)
    (hauth : req.authorization = some (bearerScheme ++ cfg.apiKey))
    (hfile : req.file = some f)
    (hmime : f.mimetype ∈ allowedMimes)
    (hsize : f.size ≤ MAX_FILE_SIZE)
    (hbuf : f.buffer = Buffer.image img sz) :
    ∃ art : StoredArtifact,
      (handleUpload cfg t r none req store).2 = store ++ [art] ∧
      art.frames = (if img.format = ImageFormat.gif then img.frames else 1) ∧
      (img.format = ImageFormat.gif → art.frames = img.frames) ∧
      (img.format ≠ ImageFormat.gif → art.frames = 1) := by
  have h := handleUpload_accepts cfg t r req store f img sz hauth hfile hmime
    hsize hbuf
  refine ⟨_, by rw [h], ?_, ?_, ?_⟩
  · by_cases hg : img.format = ImageFormat.gif
    · simp [sharpEncode, hg]
    · simp [sharpEncode, hg]
  · intro hg
    simp [sharpEncode, hg]
  · intro hg
    simp [sharpEncode, hg]

/-- Witness for C2 at a 7-frame GIF fixture. -/
theorem animated_iff_gif_c2_witness :
    ∃ art : StoredArtifact,
      (handleUpload testConfig 5 testBytes none gifRequest []).2 =
        [] ++ [art] ∧
      art.frames =
        (if gifImage.format = ImageFormat.gif then gifImage.frames else 1) ∧
      (gifImage.format = ImageFormat.gif → art.frames = gifImage.frames) ∧
      (gifImage.format ≠ ImageFormat.gif → art.frames = 1) :=
  animated_iff_gif_c2 testConfig 5 testBytes gifRequest [] gifFile gifImage
    2000 rfl rfl (by decide) (by decide) rfl

/-- C3: for every generated filename the path verification passes, and it
passes exactly when the directory component of the resolved output path
is the resolved storage root; and whenever the verification fails on some
name, the request fails closed through the catch block with the 500
InternalProcessingError response. -/
theorem path_verification_c3 (root : List Str) (t : Nat) (r : List Nat)
    (cfg : Config) (name : Str) (w : Option JsError) (f : UploadedFile)
    (store : List StoredArtifact) (img : SourceImage) (sz : Nat) :
    (pathCheck root (generateSafeFilename t r) = true ↔
      (pathResolve root (generateSafeFilename t r)).dropLast = root) ∧
    pathCheck root (generateSafeFilename t r) = true ∧
    (f.buffer = Buffer.image img sz → pathCheck cfg.uploadDir name = false →
      tryBody cfg name w f store =
          Except.error ⟨none, "Invalid file path".toList⟩ ∧
        (catchBlock ⟨none, "Invalid file path".toList⟩).status = 500 ∧
        (catchBlock ⟨none, "Invalid file path".toList⟩).error =
          some "Failed to process image".toList) := by
  refine ⟨?_, pathCheck_generated root t r, ?_⟩
  · constructor
    · intro _
      rw [pathResolve_generated]
      simp
    · intro _
      exact pathCheck_generated root t r
  · intro hbuf hpc
    exact ⟨tryBody_badPath cfg name w f store img sz hbuf hpc, by decide,
      by decide⟩

/-- Witness for C3: the generated-name equivalence at a concrete root,
and the fail-closed 500 at the mismatching name `".."`. -/
theorem path_verification_c3_witness :
    (pathCheck testConfig.uploadDir (generateSafeFilename 5 testBytes) = true ↔
      (pathResolve testConfig.uploadDir
          (generateSafeFilename 5 testBytes)).dropLast =
        testConfig.uploadDir) ∧
    pathCheck testConfig.uploadDir (generateSafeFilename 5 testBytes) = true ∧
    (tryBody testConfig "..".toList none rotatedFile [] =
        Except.error ⟨none, "Invalid file path".toList⟩ ∧
      (catchBlock ⟨none, "Invalid file path".toList⟩).status = 500 ∧
      (catchBlock ⟨none, "Invalid file path".toList⟩).error =
        some "Failed to process image".toList) := by
  have h := path_verification_c3 testConfig.uploadDir 5 testBytes testConfig
    "..".toList none rotatedFile [] rotatedImage 1000
  exact ⟨h.1, h.2.1, h.2.2 rfl (by decide)⟩

/-- C6: with valid authentication and a whitelisted MIME type, a file of
10,485,761 bytes or more is rejected with 413 — for an arbitrary,
never-inspected buffer and with the store untouched — while a file of
exactly 10,485,760 bytes whose buffer decodes is accepted with 201. -/
theorem size_boundary_c6 (cfg : Config) (t : Nat) (r : List Nat)
    (w : Option JsError) (req : UploadRequest) (store : List StoredArtifact)
    (f : UploadedFile) (img : SourceImage) (sz : Nat)
    (hauth : req.authorization = some (bearerScheme ++ cfg.apiKey))
    (hfile : req.file = some f)
    (hmime : f.mimetype ∈ allowedMimes) :
    (10485761 ≤ f.size →
      (handleUpload cfg t r w req store).1.status = 413 ∧
        (handleUpload cfg t r w req store).2 = store) ∧
    (f.size = 10485760 → f.buffer = Buffer.image img sz →
      (handleUpload cfg t r none req store).1.status = 201) := by
  constructor
  · intro hbig
    have hgt : f.size > MAX_FILE_SIZE := by
      simp only [MAX_FILE_SIZE]; omega
    rw [handleUpload_oversize cfg t r w req store f hauth hfile hmime hgt]
    exact ⟨rfl, rfl⟩
  · intro hsz hbuf
    have hle : f.size ≤ MAX_FILE_SIZE := by
      simp only [MAX_FILE_SIZE]; omega
    rw [handleUpload_accepts cfg t r req store f img sz hauth hfile hmime hle
      hbuf]

/-- Witness for C6: one byte over the ceiling is 413 with nothing stored,
exactly at the ceiling is 201. -/
theorem size_boundary_c6_witness :
    ((handleUpload testConfig 5 testBytes none oversizeRequest []).1.status =
        413 ∧
      (handleUpload testConfig 5 testBytes none oversizeRequest []).2 = []) ∧
    (handleUpload testConfig 5 testBytes none maxSizeRequest []).1.status =
      201 := by
  constructor
  · exact (size_boundary_c6 testConfig 5 testBytes none oversizeRequest []
      oversizeFile stillImage 0 rfl rfl (by decide)).1 (by decide)
  · exact (size_boundary_c6 testConfig 5 testBytes none maxSizeRequest []
      maxSizeFile stillImage 10485760 rfl rfl (by decide)).2 rfl rfl

/-- C7 is false on the code: a zero-byte upload is authenticated, within
the size limit and MIME-whitelisted, and its buffer cannot be decoded,
yet the response is 500, not 400 — sharp rejects the empty buffer with
"Input Buffer is empty", whose capital "B" defeats the catch block's
case-sensitive `error.message.includes('Input buffer')` test. -/
theorem invalid_image_c7_counterexample :
    emptyRequest.authorization = some (bearerScheme ++ testConfig.apiKey) ∧
    emptyFile.mimetype ∈ allowedMimes ∧
    emptyFile.size ≤ MAX_FILE_SIZE ∧
    sharpMetadata emptyFile.buffer =
      Except.error ⟨none, "Input Buffer is empty".toList⟩ ∧
    (handleUpload testConfig 5 testBytes none emptyRequest []).1.status =
      500 ∧
    ¬ (handleUpload testConfig 5 testBytes none emptyRequest []).1.status =
        400 :=
  ⟨rfl, by decide, by decide, rfl, by decide, by decide⟩

/-- C7 (amended): every authenticated, size- and MIME-accepted upload
whose buffer is non-empty but undecodable (sharp's corrupt-header or
unsupported-format failures, whose messages contain "Input buffer") is
answered 400 InvalidImage — never 500 — with the store unchanged; a
zero-byte buffer is the exception and yields 500. -/
theorem invalid_image_c7 (cfg : Config) (t : Nat) (r : List Nat)
    (w : Option JsError) (req : UploadRequest) (store : List StoredArtifact)
    (f : UploadedFile) (u : Bool) (bsz : Nat)
    (hauth : req.authorization = some (bearerScheme ++ cfg.apiKey))
    (hfile : req.file = some f)
    (hmime : f.mimetype ∈ allowedMimes)
    (hsize : f.size ≤ MAX_FILE_SIZE)
    (hbuf : f.buffer = Buffer.corrupt u bsz) :
    (handleUpload cfg t r w req store).1.status = 400 ∧
    (handleUpload cfg t r w req store).1.error =
      some "Invalid or corrupted image file.".toList ∧
    (handleUpload cfg t r w req store).2 = store := by
  have herr := tryBody_corrupt cfg (generateSafeFilename t r) w f store u bsz
    hbuf
  rw [handleUpload_catch cfg t r w req store f _ hauth hfile hmime hsize herr]
  cases u
  · refine ⟨?_, ?_, rfl⟩
    · show (catchBlock ⟨none,
          "Input buffer has corrupt header".toList⟩).status = 400
      decide
    · show (catchBlock ⟨none,
          "Input buffer has corrupt header".toList⟩).error =
        some "Invalid or corrupted image file.".toList
      decide
  · refine ⟨?_, ?_, rfl⟩
    · show (catchBlock ⟨none,
          "Input buffer contains unsupported image format".toList⟩).status =
        400
      decide
    · show (catchBlock ⟨none,
          "Input buffer contains unsupported image format".toList⟩).error =
        some "Invalid or corrupted image file.".toList
      decide

/-- Witness for the amended C7 at a corrupt-header GIF fixture. -/
theorem invalid_image_c7_witness :
    (handleUpload testConfig 5 testBytes none corruptRequest []).1.status =
      400 ∧
    (handleUpload testConfig 5 testBytes none corruptRequest []).1.error =
      some "Invalid or corrupted image file.".toList ∧
    (handleUpload testConfig 5 testBytes none corruptRequest []).2 = [] :=
  invalid_image_c7 testConfig 5 testBytes none corruptRequest [] corruptFile
    false 50 rfl rfl (by decide) (by decide) rfl

/-- C8: every generated filename has the shape
`<decimal timestamp>-<16 lowercase hex chars>.webp`, every accepted
upload is stored under exactly the generated name, and the client's
declared original filename never influences the stored name. -/
theorem filename_shape_c8 (cfg : Config) (t : Nat) (r : List Nat)
    (req : UploadRequest) (store : List StoredArtifact) (f : UploadedFile)
    (img : SourceImage) (sz : Nat)
    (hlen : r.length = 8)
    (hauth : req.authorization = some (bearerScheme ++ cfg.apiKey))
    (hfile : req.file = some f)
    (hmime : f.mimetype ∈ allowedMimes)
    (hsize : f.size ≤ MAX_FILE_SIZE)
    (hbuf : f.buffer = Buffer.image img sz) :
    filenameShapeOK (generateSafeFilename t r) = true ∧
    (handleUpload cfg t r none req store).2.map StoredArtifact.filename =
      store.map StoredArtifact.filename ++ [generateSafeFilename t r] ∧
    (∀ n : Str,
      (handleUpload cfg t r none
          { req with file := some { f with originalname := n } } store).2 =
        (handleUpload cfg t r none req store).2) := by
  have h := handleUpload_accepts cfg t r req store f img sz hauth hfile hmime
    hsize hbuf
  refine ⟨filenameShapeOK_generated t r hlen, ?_, ?_⟩
  · rw [h]
    simp
  · intro n
    have h2 := handleUpload_accepts cfg t r
      { req with file := some { f with originalname := n } } store
      { f with originalname := n } img sz hauth rfl hmime hsize hbuf
    rw [h, h2]

/-- Witness for C8 at a concrete timestamp, random bytes and upload,
including invariance under a hostile declared filename. -/
theorem filename_shape_c8_witness :
    filenameShapeOK (generateSafeFilename 1700000000000 testBytes) = true ∧
    (handleUpload testConfig 1700000000000 testBytes none maxSizeRequest
          []).2.map StoredArtifact.filename =
      ([] : List StoredArtifact).map StoredArtifact.filename ++
        [generateSafeFilename 1700000000000 testBytes] ∧
    (handleUpload testConfig 1700000000000 testBytes none
        { maxSizeRequest with
          file := some
            { maxSizeFile with originalname := "../../etc/passwd".toList } }
        []).2 =
      (handleUpload testConfig 1700000000000 testBytes none maxSizeRequest
        []).2 := by
  have h := filename_shape_c8 testConfig 1700000000000 testBytes
    maxSizeRequest [] maxSizeFile stillImage 10485760 rfl rfl rfl (by decide)
    (by decide) rfl
  exact ⟨h.1, h.2.1, h.2.2 "../../etc/passwd".toList⟩

/-- C10: when the processing stage fails with an unclassified error — its
code is not ENOSPC and its message does not contain "Input buffer" — the
500 response carries the fixed error string and the underlying
exception's message verbatim in the `message` field. -/
theorem internal_error_message_c10 (cfg : Config) (t : Nat) (r : List Nat)
    (w : Option JsError) (req : UploadRequest) (store : List StoredArtifact)
    (f : UploadedFile) (e : JsError)
    (hauth : req.authorization = some (bearerScheme ++ cfg.apiKey))
    (hfile : req.file = some f)
    (hmime : f.mimetype ∈ allowedMimes)
    (hsize : f.size ≤ MAX_FILE_SIZE)
    (herr : tryBody cfg (generateSafeFilename t r) w f store = Except.error e)
    (hcode : e.code ≠ some "ENOSPC".toList)
    (hmsg : strContains e.message "Input buffer".toList = false) :
    (handleUpload cfg t r w req store).1.status = 500 ∧
    (handleUpload cfg t r w req store).1.error =
      some "Failed to process image".toList ∧
    (handleUpload cfg t r w req store).1.message = some e.message := by
  rw [handleUpload_catch cfg t r w req store f e hauth hfile hmime hsize herr]
  simp only [catchBlock]
  rw [if_neg hcode, if_neg (by simpa using hmsg)]
  exact ⟨rfl, rfl, rfl⟩

/-- Witness for C10: a codeless write failure with message "boom" is
echoed verbatim in the 500 body. -/
theorem internal_error_message_c10_witness :
    (handleUpload testConfig 5 testBytes (some bootError) rotatedRequest
        []).1.status = 500 ∧
    (handleUpload testConfig 5 testBytes (some bootError) rotatedRequest
        []).1.error = some "Failed to process image".toList ∧
    (handleUpload testConfig 5 testBytes (some bootError) rotatedRequest
        []).1.message = some bootError.message :=
  internal_error_message_c10 testConfig 5 testBytes (some bootError)
    rotatedRequest [] rotatedFile bootError rfl rfl (by decide) (by decide)
    (tryBody_writeFail testConfig (generateSafeFilename 5 testBytes) bootError
      rotatedFile [] rotatedImage 1000 rfl
      (pathCheck_generated testConfig.uploadDir 5 testBytes))
    (by decide) (by decide)

end Snapieimage
